import Mathlib

/-!
Verification of the AMASS G1 viewer's archive indexing and query engine
(`scripts/data_explorer.py`, `scripts/action_analyzer.py`) against its
natural-language specification.

The scripts are shallowly embedded: the filesystem enumeration that
`Path.iterdir` / `Path.glob("*.npz")` yields is taken as an explicit input
(a tree of dataset / subject / file listings, in the order the OS returns
them), the numpy load of one `.npz` file is an `Except` value carried by
that input (success holds `fps`, the frame count and the file size in MB;
failure holds the exception message), and floats (`fps`, durations,
mega-byte sizes) are modelled as rationals.
-/

namespace AmassViewer

/-! ## Strings: Python `str.lower` and the `in` substring test -/

/-- Python `str.lower()` restricted to ASCII, as `Char.toLower` maps
only `A`–`Z`; the classifier tables and filenames are ASCII. -/
def lower (s : String) : String :=
  ⟨s.data.map Char.toLower⟩

/-- Python's `pat in hay` substring test. -/
def pyIn (pat hay : String) : Bool :=
  hay.data.tails.any (fun t => pat.data.isPrefixOf t)

/-! ## Action Classifier (`action_analyzer.py`)

A rule table is an ordered list of (category, pattern list) pairs, the
order being the insertion order of the `self.action_patterns` dict. -/

/-- The rule table `ActionAnalyzer.action_patterns` (lines 20–33),
categories and patterns in declaration order. -/
def action_patterns : List (String × List String) :=
  [("dance", ["dance", "flamenco", "salsa", "bachata", "reggaeton", "karsilamas",
              "zeimpekiko", "hasapiko", "maleviziotikos", "haniotikos"]),
   ("emotion", ["happy", "sad", "angry", "tired", "excited", "afraid", "annoyed",
                "nervous", "scary", "satisfied"]),
   ("daily", ["walk", "run", "jump", "sit", "stand", "reach", "grab", "throw", "catch"]),
   ("sport", ["basketball", "football", "tennis", "swimming", "boxing", "kick", "punch"]),
   ("gesture", ["wave", "point", "clap", "shake", "nod", "bow"]),
   ("other", ["mix", "musical", "theater", "performance"])]

/-- Does one rule's pattern list contain a substring of the (already
lowered) filename?  This is the inner `for pattern in patterns` loop of
`_extract_action_info` (lines 77–81): `break` after the first hit only
shortens the search, the outcome is whether any pattern hits. -/
def matchesRule (r : String × List String) (lowname : String) : Bool :=
  r.2.any (fun p => pyIn p lowname)

/-- The category loop of `_extract_action_info` (lines 75–86) on a
pre-lowered filename: categories are tried in declaration order, the
first one with a pattern hit is returned (`categorized = True` then
`break` of the outer loop), and `"unknown"` when the loop falls through. -/
def firstCategory (rules : List (String × List String)) (lowname : String) : String :=
  match rules with
  | [] => "unknown"
  | r :: rest => if matchesRule r lowname then r.1 else firstCategory rest lowname

/-- Classification of one filename: `_extract_action_info` lowers the
name once (line 72) and runs the rule loop. -/
def extractCategory (rules : List (String × List String)) (filename : String) : String :=
  firstCategory rules (lower filename)

/-! ## Archive Scanner (`data_explorer.py`, `scan_datasets`, lines 41–88) -/

/-- What `np.load` + shape/stat extraction yields for one readable file:
`fps` (line 72), the frame count `body_positions.shape[0]` (line 73) and
the file size in MB (line 75). -/
structure FileData where
  fps : ℚ
  numFrames : ℕ
  sizeMB : ℚ
deriving DecidableEq, Repr

deriving instance DecidableEq for Except

/-- One `.npz` file as the scanner sees it: its name and the outcome of
the `try: data = np.load(file_path) ...` block — `.ok` with the decoded
data or `.error` with the exception message (line 85). -/
structure ScanFile where
  name : String
  read : Except String FileData
deriving DecidableEq, Repr

/-- A subject directory's `.npz` listing, in `glob` order. -/
abbrev SubjectListing := String × List ScanFile

/-- A dataset directory's subject listing, in `iterdir` order. -/
abbrev DatasetListing := String × List SubjectListing

/-- The root enumeration: datasets in the order `data_root.iterdir()`
yields them.  Non-directories and non-`.npz` files are already absent
(the code silently skips them). -/
abbrev Root := List DatasetListing

/-- The files of a subject whose `try` block succeeds, in scan order. -/
def successes (fs : List ScanFile) : List FileData :=
  fs.filterMap (fun f => f.read.toOption)

/-- duration = num_frames / fps (line 74). -/
def durationOf (d : FileData) : ℚ :=
  (d.numFrames : ℚ) / d.fps

/-- The per-subject record built by `scan_datasets` (lines 59–79):
`files` is the full `glob` result (line 56, kept even for files whose
read later fails), `file_count = len(files)` (line 62), and the three
parallel lists receive one element per successful read (lines 77–79). -/
structure SubjectInfo where
  files : List String
  file_count : ℕ
  frames : List ℕ
  durations : List ℚ
  file_sizes : List ℚ
deriving DecidableEq, Repr

/-- Lines 56–79 for one subject directory. -/
def scanSubject (fs : List ScanFile) : SubjectInfo :=
  { files := fs.map (fun f => f.name)
    file_count := fs.length
    frames := (successes fs).map (fun d => d.numFrames)
    durations := (successes fs).map durationOf
    file_sizes := (successes fs).map (fun d => d.sizeMB) }

/-- The per-dataset record of `scan_datasets` (lines 44–50): subjects in
scan order (only those with a non-empty `.npz` listing, line 58), and the
counters incremented once per successful read (lines 81–83). -/
structure DatasetInfo where
  subjects : List (String × SubjectInfo)
  total_files : ℕ
  total_frames : ℕ
  file_sizes : List ℚ
deriving DecidableEq, Repr

/-- Lines 44–86 for one dataset directory. -/
def scanDataset (subs : List SubjectListing) : DatasetInfo :=
  let kept := subs.filter (fun s => !s.2.isEmpty)
  { subjects := kept.map (fun s => (s.1, scanSubject s.2))
    total_files := (kept.map (fun s => (successes s.2).length)).sum
    total_frames := (kept.map (fun s => ((successes s.2).map (fun d => d.numFrames)).sum)).sum
    file_sizes := (kept.map (fun s => (successes s.2).map (fun d => d.sizeMB))).flatten }

/-- Function `scan_datasets` over the whole root: one dataset record per directory
(the `self.datasets` dict, in insertion = enumeration order). -/
def scanDatasets (root : Root) : List (String × DatasetInfo) :=
  root.map (fun d => (d.1, scanDataset d.2))

/-- Total number of per-file metadata records held by the scan result
(the combined length of the per-subject parallel lists). -/
def numMetadataEntries (idx : List (String × DatasetInfo)) : ℕ :=
  (idx.map (fun d => (d.2.subjects.map (fun s => s.2.durations.length)).sum)).sum

/-- Number of files of the root whose read succeeds. -/
def numSuccessesRoot (root : Root) : ℕ :=
  (root.map (fun d => (d.2.map (fun s => (successes s.2).length)).sum)).sum

/-- Replace every per-file error message by the empty string, keeping
everything else of the enumeration unchanged. -/
def scrubFile (f : ScanFile) : ScanFile :=
  { f with read := match f.read with
                   | .error _ => .error ""
                   | .ok d => .ok d }

/-- Map `scrubFile` over a whole root. -/
def scrubRoot (root : Root) : Root :=
  root.map (fun d => (d.1, d.2.map (fun s => (s.1, s.2.map scrubFile))))

/-! ## Entry order (claim C4) -/

/-- One indexed entry's key: (dataset, subject, file name). -/
abbrev EntryKey := String × String × String

/-- The entry sequence of a built index, in insertion order. -/
def indexEntries (idx : List (String × DatasetInfo)) : List EntryKey :=
  idx.flatMap (fun d => d.2.subjects.flatMap (fun s => s.2.files.map (fun f => (d.1, s.1, f))))

/-- The enumeration's own entry sequence: datasets, then subjects with a
non-empty listing, then files, each in the order the OS yields them. -/
def enumEntries (root : Root) : List EntryKey :=
  root.flatMap (fun d =>
    (d.2.filter (fun s => !s.2.isEmpty)).flatMap (fun s =>
      s.2.map (fun f => (d.1, s.1, f.name))))

/-- Strict lexicographic order on strings by code point. -/
def listLtB : List Char → List Char → Bool
  | [], [] => false
  | [], _ :: _ => true
  | _ :: _, [] => false
  | a :: as, b :: bs =>
      if a.toNat < b.toNat then true
      else if b.toNat < a.toNat then false
      else listLtB as bs

/-- Strict `a < b` on strings, lexicographic by code point. -/
def strLtB (a b : String) : Bool :=
  listLtB a.data b.data

/-- Order `a ≤ b` on entry keys: dataset, then subject, then file name. -/
def entryLeB (a b : EntryKey) : Bool :=
  strLtB a.1 b.1 ||
    (a.1 == b.1 && (strLtB a.2.1 b.2.1 ||
      (a.2.1 == b.2.1 && (strLtB a.2.2 b.2.2 || a.2.2 == b.2.2))))

/-- Is the entry sequence sorted under `entryLeB`? -/
def sortedLexB : List EntryKey → Bool
  | [] => true
  | [_] => true
  | a :: b :: rest => entryLeB a b && sortedLexB (b :: rest)

/-! ## Query engine: `explore_dataset` (`data_explorer.py`, lines 114–146) -/

/-- Model of `np.mean(xs)`: numpy yields NaN (after a 0/0) for an empty list,
modelled as `none`; otherwise the arithmetic mean. -/
def npMean (xs : List ℚ) : Option ℚ :=
  if xs.isEmpty then none else some (xs.sum / (xs.length : ℚ))

/-- What `explore_dataset` prints per subject (lines 133–137): the file
count, the frame total, and the two means. -/
structure SubjectSummary where
  subject : String
  file_count : ℕ
  total_frames : ℕ
  mean_duration : Option ℚ
  mean_size : Option ℚ
deriving DecidableEq, Repr

/-- Lines 133–137 for one subject of the explored dataset. -/
def summarizeSubject (s : String × SubjectInfo) : SubjectSummary :=
  { subject := s.1
    file_count := s.2.file_count
    total_frames := s.2.frames.sum
    mean_duration := npMean s.2.durations
    mean_size := npMean s.2.file_sizes }

/-- Method `explore_dataset` (lines 114–137): the membership guard of lines
122–124 is the error branch; otherwise the first `max_subjects` subjects
(line 130) are summarized. -/
def exploreDataset (idx : List (String × DatasetInfo)) (dataset_name : String)
    (max_subjects : ℕ) : Except String (List SubjectSummary) :=
  match idx.lookup dataset_name with
  | none => .error ("dataset does not exist: " ++ dataset_name)
  | some ds => .ok ((ds.subjects.take max_subjects).map summarizeSubject)

/-- The divisor `len(durations)` that each `np.mean` call of
`explore_dataset` receives, one per summarized subject. -/
def exploreDivisors (idx : List (String × DatasetInfo)) (dataset_name : String)
    (max_subjects : ℕ) : Option (List ℕ) :=
  match idx.lookup dataset_name with
  | none => none
  | some ds => some ((ds.subjects.take max_subjects).map (fun s => s.2.durations.length))

/-! ## Query engine: `find_similar_motions` (`data_explorer.py`, lines 195–231) -/

/-- One row of the motion listing (lines 213–219). -/
structure Motion where
  subject : String
  file : String
  duration : ℚ
  frames : ℕ
  file_size : ℚ
deriving DecidableEq, Repr

/-- The duration filter of line 212: `duration_range is None` accepts
everything; otherwise `duration_range[0] <= duration <= duration_range[1]`,
where the upper bound may be `float('inf')` (modelled as `⊤`). -/
def inRangeB (range : Option (ℚ × WithTop ℚ)) (d : ℚ) : Bool :=
  match range with
  | none => true
  | some (lo, hi) => decide (lo ≤ d) && decide ((d : WithTop ℚ) ≤ hi)

/-- Lines 210–219: for each subject, `enumerate(subject_info['durations'])`
pairs each in-range duration at position `i` with
`subject_info['files'][i].name`, `frames[i]` and `file_sizes[i]`.
Note that `files` lists every `.npz` file while the other three lists
hold only successfully-read ones, so `i` indexes two differently-aligned
lists. -/
def findSimilarMotions (ds : DatasetInfo) (range : Option (ℚ × WithTop ℚ)) : List Motion :=
  ds.subjects.flatMap (fun s =>
    (s.2.durations.enum.filter (fun p => inRangeB range p.2)).map (fun p =>
      { subject := s.1
        file := s.2.files.getD p.1 ""
        duration := p.2
        frames := s.2.frames.getD p.1 0
        file_size := s.2.file_sizes.getD p.1 0 }))

/-- Stable insertion of a later element after earlier equal ones,
modelling the stability of Python's `sorted`. -/
def insertByDuration (x : Motion) : List Motion → List Motion
  | [] => [x]
  | y :: ys => if x.duration < y.duration then x :: y :: ys else y :: insertByDuration x ys

/-- Python `sorted(motions, key=lambda x: x['duration'])` (line 227). -/
def sortByDuration (ms : List Motion) : List Motion :=
  ms.foldl (fun acc x => insertByDuration x acc) []

/-- The motion listing as printed: collected rows sorted ascending by
duration (lines 221–229). -/
def findSimilarDisplay (ds : DatasetInfo) (range : Option (ℚ × WithTop ℚ)) : List Motion :=
  sortByDuration (findSimilarMotions ds range)

/-- Method `find_similar_motions` at the index level: the membership guard of
lines 203–205 is the error branch. -/
def findSimilarRun (idx : List (String × DatasetInfo)) (dataset_name : String)
    (range : Option (ℚ × WithTop ℚ)) : Except String (List Motion) :=
  match idx.lookup dataset_name with
  | none => .error ("dataset does not exist: " ++ dataset_name)
  | some ds => .ok (findSimilarDisplay ds range)

/-- The `duration_range` that `main` builds from the CLI bounds
(`data_explorer.py`, lines 336–338): `None` when both are absent, else
`(duration_min or 0, duration_max or float('inf'))`. -/
def durationRangeOfArgs (duration_min duration_max : Option ℚ) : Option (ℚ × WithTop ℚ) :=
  if duration_min.isSome || duration_max.isSome then
    some (duration_min.getD 0, (duration_max.map (fun q => (q : WithTop ℚ))).getD ⊤)
  else
    none

/-! ## Query engine: `find_specific_action` (`action_analyzer.py`, lines 175–208) -/

/-- Result of `dataset_path.rglob("*.npz")` on a dataset directory: every subject's
files, in enumeration order. -/
def rglobNpz (subs : List SubjectListing) : List String :=
  subs.flatMap (fun s => s.2.map (fun f => f.name))

/-- Method `find_specific_action` (lines 180–194): with a dataset argument the
loop runs over just that name, and a nonexistent dataset path is
`continue`d over (lines 189–190) — there is no error branch at all, the
result is the plain list of (dataset, file name) keyword hits. -/
def findSpecificAction (root : Root) (action_keyword : String)
    (dataset_name : Option String) : List (String × String) :=
  let datasets : List String :=
    match dataset_name with
    | some d => [d]
    | none => root.map (fun dl => dl.1)
  datasets.flatMap (fun d =>
    match root.lookup d with
    | none => []
    | some subs =>
        (rglobNpz subs).filterMap (fun f =>
          if pyIn (lower action_keyword) (lower f) then some (d, f) else none))

/-! ## Category sampling overview (`action_analyzer.py`,
`list_all_datasets_actions`, lines 151–173) -/

/-- The categories one filename adds to `action_types` in the overview's
inner loops (lines 167–171): the `break` leaves only the pattern loop, so
every category with a pattern hit is added. -/
def fileCategoriesAll (rules : List (String × List String)) (filename : String) : List String :=
  rules.filterMap (fun r => if matchesRule r (lower filename) then some r.1 else none)

/-- The sampled category set for one dataset: only the first `n` files
are inspected (`for file_path in files[:10]`, line 165, with `n = 10` in
the source); the Python set is modelled as a deduplicated list. -/
def sampleCategories (rules : List (String × List String)) (files : List String)
    (n : ℕ) : List String :=
  ((files.take n).flatMap (fileCategoriesAll rules)).dedup

/-! ## Concrete enumerations used as test inputs -/

/-- A file whose `np.load` raises. -/
def badNpz : ScanFile :=
  ⟨"bad.npz", .error "corrupt file"⟩

/-- A readable file: 100 frames at 100 fps (duration 1 s), 1 MB. -/
def goodNpz : ScanFile :=
  ⟨"good.npz", .ok ⟨100, 100, 1⟩⟩

/-- A readable file of a given name: 50 frames at 100 fps, 1 MB. -/
def okNpz (n : String) : ScanFile :=
  ⟨n, .ok ⟨100, 50, 1⟩⟩

/-- A root with one dataset of two subjects: 5 readable files and 2 files
whose read fails. -/
def fiveTwoRoot : Root :=
  [("D", [("s1", [okNpz "a.npz", ⟨"b.npz", .error "corrupt"⟩, okNpz "c.npz"]),
          ("s2", [okNpz "d.npz", okNpz "e.npz", ⟨"f.npz", .error "missing field"⟩,
                  okNpz "g.npz"])])]

/-- A root whose datasets are enumerated in the order `b`, `a`. -/
def rootBA : Root :=
  [("b", [("s", [goodNpz])]), ("a", [("s", [goodNpz])])]

/-- The same archive enumerated in the order `a`, `b`. -/
def rootAB : Root :=
  [("a", [("s", [goodNpz])]), ("b", [("s", [goodNpz])])]

/-- A root holding one dataset named `Empty` with no files at all. -/
def rootEmptyDs : Root :=
  [("Empty", [])]

/-- A root whose single subject has one file, whose read fails. -/
def allFailRoot : Root :=
  [("D", [("s", [badNpz])])]

/-! ## Claim C2: classifier first-match short-circuit -/

/-- C2.  The classifier checks the ordered rule table in declaration
order and returns the category of the first rule with a case-insensitive
substring hit, ignoring every later rule; with rules
`[A: x, B: xy]` the filename `xy_clip.npz` classifies as `A`, the
first-declared matching category. -/
theorem C2_classifier_first_match :
    (∀ (pre : List (String × List String)) (r : String × List String)
       (post : List (String × List String)) (low : String),
       (∀ r' ∈ pre, matchesRule r' low = false) →
       matchesRule r low = true →
       firstCategory (pre ++ r :: post) low = r.1) ∧
    extractCategory [("A", ["x"]), ("B", ["xy"])] "xy_clip.npz" = "A" := by
  constructor
  · intro pre r post low hpre hr
    induction pre with
    | nil => simp [firstCategory, hr]
    | cons p pre ih =>
        have hp : matchesRule p low = false := hpre p (List.mem_cons_self p pre)
        simp only [List.cons_append, firstCategory, hp, Bool.false_eq_true, if_false]
        exact ih (fun r' hr' => hpre r' (List.mem_cons_of_mem p hr'))
  · decide

/-- C2 witness: with a first rule that does not match, the second rule's
category is returned. -/
theorem C2_witness :
    firstCategory [("A", ["zz"]), ("B", ["xy"])] "xy_clip.npz" = "B" :=
  C2_classifier_first_match.1 [("A", ["zz"])] ("B", ["xy"]) [] "xy_clip.npz"
    (by decide) (by decide)

/-! ## Claim C7: the `unknown` sentinel -/

/-- C7.  A filename matched by no pattern of any rule is classified as
the sentinel `"unknown"`, and every classification result is either a
declared category of the rule table or `"unknown"` — never absent. -/
theorem C7_unknown_sentinel :
    (∀ (rules : List (String × List String)) (low : String),
       rules.all (fun r => !(matchesRule r low)) = true →
       firstCategory rules low = "unknown") ∧
    (∀ (rules : List (String × List String)) (f : String),
       extractCategory rules f = "unknown" ∨
         ∃ ps, (extractCategory rules f, ps) ∈ rules) := by
  constructor
  · intro rules low hall
    induction rules with
    | nil => rfl
    | cons r rest ih =>
        simp only [List.all_cons, Bool.and_eq_true, Bool.not_eq_true'] at hall
        simp only [firstCategory, hall.1, Bool.false_eq_true, if_false]
        exact ih hall.2
  · intro rules f
    unfold extractCategory
    induction rules with
    | nil => left; rfl
    | cons r rest ih =>
        simp only [firstCategory]
        by_cases h : matchesRule r (lower f) = true
        · right
          refine ⟨r.2, ?_⟩
          simp [h]
        · simp only [h, if_false]
          rcases ih with h1 | ⟨ps, hps⟩
          · left; exact h1
          · right; exact ⟨ps, List.mem_cons_of_mem r hps⟩

/-- C7 witness: a filename hitting no pattern of the real rule table is
classified `"unknown"`. -/
theorem C7_witness :
    firstCategory action_patterns "zzz_99.npz" = "unknown" :=
  C7_unknown_sentinel.1 action_patterns "zzz_99.npz" (by decide)

/-! ## Claim C9: bounded-cost category sampling -/

/-- C9.  The sampling overview inspects only the first `n` files of a
dataset: the sampled set is unchanged by whatever files follow the first
`n`, and a category is in the sample exactly when one of the first `n`
files matches it — so a category appearing only later can be absent. -/
theorem C9_sample_bounded :
    (∀ (rules : List (String × List String)) (files rest : List String) (n : ℕ),
       files.length = n →
       sampleCategories rules (files ++ rest) n = sampleCategories rules files n) ∧
    (∀ (rules : List (String × List String)) (files : List String) (n : ℕ) (c : String),
       c ∈ sampleCategories rules files n ↔
         ∃ f ∈ files.take n, c ∈ fileCategoriesAll rules f) := by
  constructor
  · intro rules files rest n h
    subst h
    unfold sampleCategories
    rw [List.take_left, List.take_length]
  · intro rules files n c
    simp [sampleCategories, List.mem_dedup, List.mem_flatMap]

/-- C9 witness: a `sport` file sitting right after the sampled prefix
does not change the sampled category set. -/
theorem C9_witness :
    sampleCategories action_patterns
        (["walk_01.npz", "dance_02.npz"] ++ ["boxing_03.npz"]) 2 =
      sampleCategories action_patterns ["walk_01.npz", "dance_02.npz"] 2 :=
  C9_sample_bounded.1 action_patterns ["walk_01.npz", "dance_02.npz"]
    ["boxing_03.npz"] 2 rfl

/-! ## Claim C10: the overview's inner break adds every matching category -/

/-- C10.  In the overview, the inner `break` leaves only the per-category
pattern loop: every declared category with a pattern hit on a filename
ends up in the sampled set; concretely, `dance_walk_01.npz` contributes
both `dance` and `daily`, while the classifier's first-match rule would
pick only `dance`. -/
theorem C10_overview_all_matches :
    (∀ (rules : List (String × List String)) (f c : String) (ps : List String),
       (c, ps) ∈ rules → (∃ p ∈ ps, pyIn p (lower f) = true) →
       c ∈ fileCategoriesAll rules f) ∧
    fileCategoriesAll action_patterns "dance_walk_01.npz" = ["dance", "daily"] ∧
    extractCategory action_patterns "dance_walk_01.npz" = "dance" := by
  refine ⟨?_, by decide, by decide⟩
  intro rules f c ps hmem hp
  have hm : matchesRule (c, ps) (lower f) = true := by
    simpa [matchesRule, List.any_eq_true] using hp
  exact List.mem_filterMap.mpr ⟨(c, ps), hmem, by simp [hm]⟩

/-- C10 witness: `daily` is added for `dance_walk_01.npz` even though the
first-declared matching category is `dance`. -/
theorem C10_witness :
    "daily" ∈ fileCategoriesAll action_patterns "dance_walk_01.npz" :=
  C10_overview_all_matches.1 action_patterns "dance_walk_01.npz" "daily"
    ["walk", "run", "jump", "sit", "stand", "reach", "grab", "throw", "catch"]
    (by decide) ⟨"walk", by decide, by decide⟩

/-! ## Claim C5: NotFound on a nonexistent dataset name -/

/-- C5 counterexample.  Keyword search with a dataset argument does not
signal anything when the dataset does not exist: it returns the same
empty, successful result it returns for a dataset that exists but holds
no files — the two cases are indistinguishable to the caller. -/
theorem C5_cex :
    findSpecificAction rootEmptyDs "walk" (some "Missing") = [] ∧
    findSpecificAction rootEmptyDs "walk" (some "Missing") =
      findSpecificAction rootEmptyDs "walk" (some "Empty") ∧
    (rootEmptyDs.lookup "Empty").isSome = true ∧
    (rootEmptyDs.lookup "Missing").isSome = false := by
  decide

/-- C5 amended.  The dataset-exploration and duration queries do signal
a dataset-not-found error for a name absent from the index, but keyword
search with a dataset argument silently skips a nonexistent dataset and
yields an empty successful result. -/
theorem C5_notfound_partial :
    (∀ (idx : List (String × DatasetInfo)) (name : String) (m : ℕ),
       idx.lookup name = none →
       exploreDataset idx name m = .error ("dataset does not exist: " ++ name)) ∧
    (∀ (idx : List (String × DatasetInfo)) (name : String)
       (r : Option (ℚ × WithTop ℚ)),
       idx.lookup name = none →
       findSimilarRun idx name r = .error ("dataset does not exist: " ++ name)) ∧
    (∀ (root : Root) (kw d : String),
       root.lookup d = none →
       findSpecificAction root kw (some d) = []) := by
  refine ⟨?_, ?_, ?_⟩
  · intro idx name m h
    simp [exploreDataset, h]
  · intro idx name r h
    simp [findSimilarRun, h]
  · intro root kw d h
    simp [findSpecificAction, h]

/-- C5 witness: querying the empty index signals the error. -/
theorem C5_witness :
    exploreDataset ([] : List (String × DatasetInfo)) "X" 5 =
      .error ("dataset does not exist: " ++ "X") :=
  C5_notfound_partial.1 [] "X" 5 rfl

/-! ## Claim C6: duration search and read failures -/

/-- C6.  Evaluation of the duration search at an archive whose subject
listing is `[bad.npz (read fails), good.npz (100 frames at 100 fps)]`:
the motion row pairs `durations[0]` (good.npz's duration, 1 s) with
`files[0]` — which is `bad.npz`, the unreadable file — because `files`
lists every `.npz` file while `durations` holds only successful reads.
The failed file's name therefore appears in the result, both without a
range and with the inclusive range `[1, 2]`. -/
theorem C6_failed_file_in_results :
    badNpz.read.toOption = none ∧
    findSimilarDisplay (scanDataset [("s", [badNpz, goodNpz])]) none =
      [{ subject := "s", file := "bad.npz", duration := 1,
         frames := 100, file_size := 1 }] ∧
    findSimilarDisplay (scanDataset [("s", [badNpz, goodNpz])])
        (durationRangeOfArgs (some 1) (some 2)) =
      [{ subject := "s", file := "bad.npz", duration := 1,
         frames := 100, file_size := 1 }] := by
  have hdur : durationOf ⟨100, 100, 1⟩ = (1 : ℚ) := by
    norm_num [durationOf]
  have h0 : scanDataset [("s", [badNpz, goodNpz])] =
      { subjects := [("s", { files := ["bad.npz", "good.npz"], file_count := 2,
                             frames := [100], durations := [durationOf ⟨100, 100, 1⟩],
                             file_sizes := [1] })],
        total_files := 1, total_frames := 100, file_sizes := [1] } := rfl
  have hds : scanDataset [("s", [badNpz, goodNpz])] =
      { subjects := [("s", { files := ["bad.npz", "good.npz"], file_count := 2,
                             frames := [100], durations := [1],
                             file_sizes := [1] })],
        total_files := 1, total_frames := 100, file_sizes := [1] } := by
    rw [h0, hdur]
  refine ⟨rfl, ?_, ?_⟩ <;> rw [hds] <;> decide

/-! ## Claim C8: per-subject means and the zero-divisor guard -/

/-- C8 counterexample.  A subject whose only file fails to read is still
selected and summarized by `explore_dataset`: the `np.mean` calls for it
receive the empty list — a zero divisor, with no guard — and the printed
means are numpy's NaN (modelled `none`). -/
theorem C8_cex :
    exploreDivisors (scanDatasets allFailRoot) "D" 5 = some [0] ∧
    exploreDataset (scanDatasets allFailRoot) "D" 5 =
      .ok [{ subject := "s", file_count := 1, total_frames := 0,
             mean_duration := none, mean_size := none }] := by
  decide

/-- C8 amended.  Explore summarizes the first `max_subjects` subjects;
its means are taken over the successfully-read entries only (the
`durations` / `file_sizes` lists hold one element per successful read),
but there is no zero guard: a subject with zero successfully-read files
is still summarized and its mean is numpy's empty mean (NaN, modelled
`none`). -/
theorem C8_explore_means :
    (∀ (idx : List (String × DatasetInfo)) (name : String) (m : ℕ)
       (ds : DatasetInfo),
       idx.lookup name = some ds →
       exploreDataset idx name m = .ok ((ds.subjects.take m).map summarizeSubject)) ∧
    (∀ s : String × SubjectInfo,
       (summarizeSubject s).mean_duration = npMean s.2.durations ∧
       (summarizeSubject s).mean_size = npMean s.2.file_sizes) ∧
    (∀ fs : List ScanFile,
       (scanSubject fs).durations = (successes fs).map durationOf ∧
       (scanSubject fs).file_sizes = (successes fs).map (fun d => d.sizeMB)) ∧
    (∀ s : String × SubjectInfo,
       s.2.durations = [] → (summarizeSubject s).mean_duration = none) := by
  refine ⟨?_, fun s => ⟨rfl, rfl⟩, fun fs => ⟨rfl, rfl⟩, ?_⟩
  · intro idx name m ds h
    simp [exploreDataset, h]
  · intro s h
    simp [summarizeSubject, npMean, h]

/-- C8 witness: the all-failed subject's summary has an undefined mean. -/
theorem C8_witness :
    (summarizeSubject ("s", scanSubject [badNpz])).mean_duration = none :=
  C8_explore_means.2.2.2 ("s", scanSubject [badNpz]) (by decide)

/-! ## Scan helper lemmas (shared) -/

/-- Scrubbing keeps the file name. -/
theorem name_scrubFile (f : ScanFile) : (scrubFile f).name = f.name :=
  rfl

/-- Scrubbing keeps the success/failure outcome of the read. -/
theorem toOption_scrubFile (f : ScanFile) :
    (scrubFile f).read.toOption = f.read.toOption := by
  cases h : f.read <;> simp [scrubFile, h, Except.toOption]

/-- The successful reads of a listing do not depend on error messages. -/
theorem successes_scrub (fs : List ScanFile) :
    successes (fs.map scrubFile) = successes fs := by
  induction fs with
  | nil => rfl
  | cons f fs ih =>
      simp only [List.map_cons, successes, List.filterMap_cons, toOption_scrubFile] at *
      cases f.read.toOption <;> simp [ih]

/-- The per-subject scan record does not depend on error messages. -/
theorem scanSubject_scrub (fs : List ScanFile) :
    scanSubject (fs.map scrubFile) = scanSubject fs := by
  simp [scanSubject, successes_scrub, List.map_map, Function.comp_def, name_scrubFile]

/-- The non-empty-listing filter commutes with scrubbing. -/
theorem filter_nonempty_scrub (subs : List SubjectListing) :
    (subs.map (fun s => (s.1, s.2.map scrubFile))).filter (fun s => !s.2.isEmpty)
      = (subs.filter (fun s => !s.2.isEmpty)).map (fun s => (s.1, s.2.map scrubFile)) := by
  induction subs with
  | nil => rfl
  | cons s subs ih =>
      cases hs : s.2 with
      | nil => simp [List.filter_cons, hs, ih]
      | cons a l => simp [List.filter_cons, hs, ih]

/-- The per-dataset scan record does not depend on error messages. -/
theorem scanDataset_scrub (subs : List SubjectListing) :
    scanDataset (subs.map (fun s => (s.1, s.2.map scrubFile))) = scanDataset subs := by
  unfold scanDataset
  rw [filter_nonempty_scrub]
  simp [List.map_map, Function.comp_def, scanSubject_scrub, successes_scrub]

/-- The whole scan result does not depend on error messages. -/
theorem scanDatasets_scrub (root : Root) :
    scanDatasets (scrubRoot root) = scanDatasets root := by
  simp [scanDatasets, scrubRoot, List.map_map, Function.comp_def, scanDataset_scrub]

/-- Dropping empty-listing subjects does not change a per-subject sum
whose term vanishes on an empty listing. -/
theorem sum_map_filter_of_empty (subs : List SubjectListing) (g : SubjectListing → ℕ)
    (hg : ∀ s ∈ subs, s.2 = [] → g s = 0) :
    ((subs.filter (fun s => !s.2.isEmpty)).map g).sum = (subs.map g).sum := by
  induction subs with
  | nil => rfl
  | cons s subs ih =>
      have ih' := ih (fun a ha he => hg a (List.mem_cons_of_mem s ha) he)
      by_cases h : s.2.isEmpty
      · have h' : s.2 = [] := List.isEmpty_iff.mp h
        simp [List.filter_cons, h, hg s (List.mem_cons_self s subs) h', ih']
      · simp [List.filter_cons, h, ih']

/-- One metadata record per successful read, per subject. -/
theorem metadata_count_subject (fs : List ScanFile) :
    (scanSubject fs).durations.length = (successes fs).length := by
  simp [scanSubject]

/-- One metadata record per successful read, per dataset. -/
theorem metadata_count_dataset (subs : List SubjectListing) :
    ((scanDataset subs).subjects.map (fun s => s.2.durations.length)).sum
      = (subs.map (fun s => (successes s.2).length)).sum := by
  unfold scanDataset
  simp only [List.map_map, Function.comp_def, metadata_count_subject]
  exact sum_map_filter_of_empty subs _ (fun s _ hs => by simp [hs, successes])

/-- One metadata record per successful read, for the whole scan. -/
theorem numMetadata_eq (root : Root) :
    numMetadataEntries (scanDatasets root) = numSuccessesRoot root := by
  unfold numMetadataEntries numSuccessesRoot scanDatasets
  simp [List.map_map, Function.comp_def, metadata_count_dataset]

/-! ## Claim C1: partial-failure tolerance of the scan -/

/-- C1 counterexample.  Scanning 5 readable and 2 unreadable files yields
5 metadata records and a per-dataset `total_files` of 5, and the scan
result is identical when the two files' error messages are replaced —
so no ReadFailure entry (path + message) is retained in the index,
against the claimed `5 + 2` entry split. -/
theorem C1_cex :
    numMetadataEntries (scanDatasets fiveTwoRoot) = 5 ∧
    (scanDatasets fiveTwoRoot).map (fun d => d.2.total_files) = [5] ∧
    scanDatasets (scrubRoot fiveTwoRoot) = scanDatasets fiveTwoRoot ∧
    scrubRoot fiveTwoRoot ≠ fiveTwoRoot := by
  refine ⟨by decide, by decide, scanDatasets_scrub fiveTwoRoot, by decide⟩

/-- C1 amended.  A per-file read failure never aborts the scan (the scan
is a total function of the enumeration), but the failure is not retained:
the scan result is independent of error messages, holds exactly one
metadata record per successful read (5 records for 5 successes and 2
failures), and keeps of a failed file only its name in the subject's
file listing. -/
theorem C1_scan_failure_tolerance :
    (∀ root : Root, scanDatasets (scrubRoot root) = scanDatasets root) ∧
    (∀ root : Root, numMetadataEntries (scanDatasets root) = numSuccessesRoot root) ∧
    (∀ fs : List ScanFile,
       (scanSubject fs).files = fs.map (fun f => f.name) ∧
       (scanSubject fs).file_count = fs.length) :=
  ⟨scanDatasets_scrub, numMetadata_eq, fun _ => ⟨rfl, rfl⟩⟩

/-! ## Claim C3: per-dataset totals -/

/-- C3 counterexample.  A dataset with one readable file (100 frames) and
one unreadable file has `total_files = 1`, not the `2` the claim's
"failures contribute 1 to total_files" would give. -/
theorem C3_cex :
    (scanDataset [("s", [goodNpz, badNpz])]).total_files = 1 ∧
    (scanDataset [("s", [goodNpz, badNpz])]).total_files ≠ 2 ∧
    (scanDataset [("s", [goodNpz, badNpz])]).total_frames = 100 := by
  refine ⟨by decide, by decide, by decide⟩

/-- C3 amended.  Both per-dataset counters run over successfully-read
entries only: `total_files` is the number of successful reads and
`total_frames` the sum of their frame counts; a read failure contributes
0 to both. -/
theorem C3_totals_successes_only :
    ∀ subs : List SubjectListing,
      (scanDataset subs).total_files = (subs.map (fun s => (successes s.2).length)).sum ∧
      (scanDataset subs).total_frames =
        (subs.map (fun s => ((successes s.2).map (fun d => d.numFrames)).sum)).sum := by
  intro subs
  constructor
  · unfold scanDataset
    exact sum_map_filter_of_empty subs _ (fun s _ hs => by simp [hs, successes])
  · unfold scanDataset
    exact sum_map_filter_of_empty subs _ (fun s _ hs => by simp [hs, successes])

/-! ## Claim C4: scan order -/

/-- C4 counterexample.  When the OS enumerates the datasets in the order
`b`, `a`, the scan's entry sequence is in that same order, not in
lexicographic order: the index's entry sequence is not sorted. -/
theorem C4_cex :
    sortedLexB (indexEntries (scanDatasets rootBA)) = false := by
  decide

/-- C4 amended.  The scan preserves the filesystem's enumeration order —
the index's entry sequence equals the enumeration's (dataset, subject,
file) sequence, so two scans of an unchanged enumeration agree — and it
is lexicographically sorted exactly when the enumeration already is; no
sorting is applied by the scan itself. -/
theorem C4_scan_order :
    (∀ root : Root, indexEntries (scanDatasets root) = enumEntries root) ∧
    (∀ root : Root, sortedLexB (enumEntries root) = true →
       sortedLexB (indexEntries (scanDatasets root)) = true) := by
  have key : ∀ root : Root, indexEntries (scanDatasets root) = enumEntries root := by
    intro root
    unfold indexEntries enumEntries scanDatasets scanDataset scanSubject
    simp [List.flatMap_map, List.map_map, Function.comp_def]
  exact ⟨key, fun root h => by rw [key root]; exact h⟩

/-- C4 witness: on a lexicographically enumerated archive the entry
sequence is sorted. -/
theorem C4_witness :
    sortedLexB (indexEntries (scanDatasets rootAB)) = true :=
  C4_scan_order.2 rootAB (by decide)

end AmassViewer
